import Mathlib

/-!
Verification development for the cross-artifact XSS-risk linting engine of
this repository.  The repository ships only the CLI driver
(`scripts/xss_linter.py`) and the test suite
(`scripts/xss_utils/tests/test_linters.py`); the scanner implementation
(`scripts.xss_utils.linters`) is not part of the source tree.  The scanners
are therefore modelled from the specification (`spec.md`), with the in-repo
test suite fixing the behaviour wherever the specification leaves it open.

All scanning is done over `List Char`, obtained from the input `String`,
so that every definition is executable and every concrete run can be
settled by kernel evaluation.
-/

set_option maxRecDepth 40000

namespace XssLint

/-- Rule catalog: the rule identifiers of the linting engine that the
claims touch (template dialect, browser-script dialect, server-script
dialect). Modelled from the spec: static registry of rule identifiers. -/
inductive RuleT where
  | underscore_not_escaped
  | javascript_concat_html
  | javascript_jquery_append
  | javascript_jquery_prepend
  | javascript_jquery_insertion
  | javascript_jquery_insert_into_target
  | javascript_jquery_html
  | javascript_interpolate
  | javascript_escape
  | python_concat_html
  | python_custom_escape
  | python_deprecated_display_name
  | python_requires_html_or_text
  | python_close_before_format
  | python_wrap_html
  | python_interpolate_html
  | python_parse_error
deriving DecidableEq, Repr

/-- The symbolic identifier of a rule, exactly as used by disable
pragmas and by the (line, rule-id-lexical-order, column) sort key. -/
def ruleId : RuleT → String
  | .underscore_not_escaped => "underscore-not-escaped"
  | .javascript_concat_html => "javascript-concat-html"
  | .javascript_jquery_append => "javascript-jquery-append"
  | .javascript_jquery_prepend => "javascript-jquery-prepend"
  | .javascript_jquery_insertion => "javascript-jquery-insertion"
  | .javascript_jquery_insert_into_target => "javascript-jquery-insert-into-target"
  | .javascript_jquery_html => "javascript-jquery-html"
  | .javascript_interpolate => "javascript-interpolate"
  | .javascript_escape => "javascript-escape"
  | .python_concat_html => "python-concat-html"
  | .python_custom_escape => "python-custom-escape"
  | .python_deprecated_display_name => "python-deprecated-display-name"
  | .python_requires_html_or_text => "python-requires-html-or-text"
  | .python_close_before_format => "python-close-before-format"
  | .python_wrap_html => "python-wrap-html"
  | .python_interpolate_html => "python-interpolate-html"
  | .python_parse_error => "python-parse-error"

/-- Violation record.  Modelled from the spec data model:
`{rule, line ≥ 1, start_line ≥ 1 (≤ line), column, disabled}`. -/
structure Violation where
  rule : RuleT
  line : Nat
  startLine : Nat
  column : Nat
  isDisabled : Bool
deriving DecidableEq, Repr

/-- Emit a single violation when the boolean trigger holds.  Every
scanner emission goes through this constructor; `line = startL + delta`
makes the `start_line ≤ line` invariant structural. -/
def emitIf (b : Bool) (r : RuleT) (startL delta : Nat) : List Violation :=
  if b then [{ rule := r, line := startL + delta, startLine := startL,
               column := 0, isDisabled := false }] else []

/-! ### Character-list helpers -/

/-- The characters of a string. -/
def chars (s : String) : List Char := s.data

def startsWithChars : List Char → List Char → Bool
  | [], _ => true
  | _ :: _, [] => false
  | p :: ps, c :: cs => p == c && startsWithChars ps cs

def endsWithChars (pat l : List Char) : Bool :=
  startsWithChars pat.reverse l.reverse

/-- Index of the first occurrence of `pat` as a sublist. -/
def findSub (pat : List Char) : List Char → Option Nat
  | [] => if pat.isEmpty then some 0 else none
  | c :: rest =>
    if startsWithChars pat (c :: rest) then some 0
    else (findSub pat rest).map (· + 1)

def containsSub (pat l : List Char) : Bool := (findSub pat l).isSome

/-- Drop leading spaces and tabs (never newlines). -/
def skipWs : List Char → List Char
  | [] => []
  | c :: rest => if c == ' ' || c == '\t' then skipWs rest else c :: rest

def isBlankChar (c : Char) : Bool :=
  c == ' ' || c == '\t' || c == '\n' || c == '\r'

def trimLeftFull : List Char → List Char
  | [] => []
  | c :: rest => if isBlankChar c then trimLeftFull rest else c :: rest

def trimBoth (l : List Char) : List Char :=
  ((trimLeftFull l.reverse).reverse |> trimLeftFull)

def splitOnChar (sep : Char) : List Char → List (List Char)
  | [] => [[]]
  | c :: rest =>
    match splitOnChar sep rest with
    | [] => if c == sep then [[], []] else [[c]]
    | h :: t => if c == sep then [] :: h :: t else (c :: h) :: t

/-- The lines of a text, in order. -/
def splitLinesC (l : List Char) : List (List Char) := splitOnChar '\n' l

/-- Everything before the first occurrence of `pat`. -/
def takeUntilSub (pat : List Char) : List Char → List Char
  | [] => []
  | c :: rest =>
    if startsWithChars pat (c :: rest) then []
    else c :: takeUntilSub pat rest

/-- Count the whitespace-delimited tokens of a line fragment. -/
def tokenCountGo : List Char → Bool → Nat
  | [], _ => 0
  | c :: rest, inTok =>
    if c == ' ' || c == '\t' then tokenCountGo rest false
    else (if inTok then 0 else 1) + tokenCountGo rest true

def tokenCount (l : List Char) : Nat := tokenCountGo l false

def isWordChar (c : Char) : Bool := c.isAlpha || c.isDigit || c == '_'

/-! ### Disable-Pragma Engine

Modelled from the spec §4.1: a line comment containing
`xss-lint: disable=<rule>[,<rule>...]`; recognition is limited by the
number of whitespace-delimited tokens preceding the marker on its line.
The token bound is fixed by the in-repo test
`test_check_underscore_file_disable_rule`: a marker preceded by five
tokens is honoured, one preceded by six tokens is ignored. -/

/-- Rule ids named by a recognized disable marker on this line
(empty when the line holds no recognized marker). -/
def pragmaRulesOfLine (line : List Char) : List (List Char) :=
  match findSub (chars "xss-lint:") line with
  | none => []
  | some i =>
    let pre := line.take i
    let atTokenStart := match pre.getLast? with
      | none => true
      | some c => c == ' ' || c == '\t'
    if atTokenStart && tokenCount pre ≤ 5 then
      let after := skipWs (line.drop (i + 9))
      if startsWithChars (chars "disable=") after then
        let spec := (after.drop 8).takeWhile
          (fun c => c.isAlpha || c == '-' || c == ',' || c == ' ')
        ((splitOnChar ',' spec).map trimBoth).filter (fun r => !r.isEmpty)
      else []
    else []

/-- All pragmas of a text, as (rule id, line number) in scan order. -/
def collectPragmas (cs : List Char) : List (List Char × Nat) :=
  (splitLinesC cs).enum.flatMap
    (fun p => (pragmaRulesOfLine p.2).map (fun r => (r, p.1 + 1)))

/-- `PendingDisable` update: a later pragma for a rule overwrites an
earlier unconsumed entry for the same rule. -/
def setPending (p : List (List Char × Nat)) (r : List Char) (L : Nat) :
    List (List Char × Nat) :=
  p.filter (fun e => !(e.1 == r)) ++ [(r, L)]

def buildPending (ps : List (List Char × Nat)) : List (List Char × Nat) :=
  ps.foldl (fun p e => setPending p e.1 e.2) []

def lookupPending (p : List (List Char × Nat)) (r : List Char) : Option Nat :=
  (p.find? (fun e => e.1 == r)).map (·.2)

def erasePending (p : List (List Char × Nat)) (r : List Char) :
    List (List Char × Nat) :=
  p.filter (fun e => !(e.1 == r))

/-- Spec §4.1 step 3: walk the violations in ascending-line (detection)
order; a violation of rule R on line V is disabled when `PendingDisable[R]`
exists with stored line ≤ V, and that entry is then consumed. -/
def consumeViolations : List (List Char × Nat) → List Violation → List Violation
  | _, [] => []
  | p, v :: vs =>
    match lookupPending p (chars (ruleId v.rule)) with
    | some L =>
      if L ≤ v.line then
        { v with isDisabled := true } ::
          consumeViolations (erasePending p (chars (ruleId v.rule))) vs
      else { v with isDisabled := false } :: consumeViolations p vs
    | none => { v with isDisabled := false } :: consumeViolations p vs

/-- The shared suppression pass applied by every dialect scanner. -/
def applyDisablePragmas (cs : List Char) (vs : List Violation) : List Violation :=
  consumeViolations (buildPending (collectPragmas cs)) vs

/-- Spec-side description of single consumption: disable the first
violation whose line is at or after the pragma's line; every later
violation stays enabled. -/
def disableFirstMatching (L : Nat) : List Violation → List Violation
  | [] => []
  | v :: vs =>
    if L ≤ v.line then
      { v with isDisabled := true } ::
        vs.map (fun w => { w with isDisabled := false })
    else { v with isDisabled := false } :: disableFirstMatching L vs

/-! ### Template scanner (Underscore dialect)

Modelled from the spec §4.2: only the raw/unescaped tag form `<%= ... %>`
is scanned (the auto-escaping form `<%- ... %>` never produces a
violation); the trimmed inner expression is exempt when it is one of the
designated self-escaping call shapes. -/

def underscoreSafeExpr (e : List Char) : Bool :=
  startsWithChars (chars "HtmlUtils.ensureHtml(") e ||
  startsWithChars (chars "_.escape(") e

def usFindViolations : List Char → Nat → List Violation
  | [], _ => []
  | c :: rest, ln =>
    if c == '\n' then usFindViolations rest (ln + 1)
    else if startsWithChars (chars "<%=") (c :: rest) then
      emitIf (!underscoreSafeExpr
          (trimBoth (takeUntilSub (chars "%>") (rest.drop 2))))
        .underscore_not_escaped ln 0 ++ usFindViolations rest ln
    else usFindViolations rest ln

/-- The Underscore-template scanner: detection pass followed by the
shared disable-pragma pass. -/
def check_underscore_file_is_safe (text : String) : List Violation :=
  applyDisablePragmas (chars text) (usFindViolations (chars text) 1)

/-! ### HTML-tag detection

Modelled from the spec §4.4 and §9: a `<` immediately followed by a
letter (or by `/` and a letter, for a closing tag), with angle-bracket
uses resembling regex named groups excluded: a `<` directly preceded by
`(?P` is never a tag start.  (The spec's own narrowing rule — requiring
the tag-name character class right after `<` — would not by itself
exclude `(?P<id>`; the exclusion is modelled as stated in the spec's
intent and fixed by the in-repo test on a raw regex literal.) -/

/-- Line offset (number of newlines before the match) of the first
HTML-tag-like pattern, or `none`.  `prevRev` carries the last characters
seen, most recent first, to recognize a `(?P` prefix. -/
def findHtmlGo : List Char → List Char → Nat → Option Nat
  | [], _, _ => none
  | c :: rest, prevRev, nl =>
    if c == '\n' then findHtmlGo rest (c :: prevRev) (nl + 1)
    else if c == '<' && !startsWithChars (chars "P?(") prevRev then
      match rest with
      | [] => none
      | c2 :: rest2 =>
        if c2.isAlpha then some nl
        else if c2 == '/' && (match rest2 with
            | c3 :: _ => c3.isAlpha
            | [] => false) then some nl
        else findHtmlGo rest (c :: prevRev) nl
    else findHtmlGo rest (c :: prevRev) nl

def findHtml (l : List Char) : Option Nat := findHtmlGo l [] 0

/-- `<` immediately followed by a letter, with no further narrowing:
the spec's stated tag-name-character-class rule taken literally. -/
def hasTagStartNaive : List Char → Bool
  | [] => false
  | c :: rest =>
    if c == '<' then
      (match rest with
       | c2 :: _ => c2.isAlpha
       | [] => false) || hasTagStartNaive rest
    else hasTagStartNaive rest

/-! ### Script scanner (browser dialect)

Modelled from the spec §4.3: independent per-line pattern families,
each with its own rule id and allow-list. -/

/-- Read a quoted literal (opening quote already consumed); `none` when
the literal does not terminate on this fragment. -/
def readJsString (q : Char) : List Char → Option (List Char × List Char)
  | [] => none
  | c :: rest =>
    if c == '\\' then
      match rest with
      | c2 :: rest2 =>
        (readJsString q rest2).map (fun p => (c :: c2 :: p.1, p.2))
      | [] => none
    else if c == q then some ([], rest)
    else (readJsString q rest).map (fun p => (c :: p.1, p.2))

/-- Take the argument text up to the call's matching close paren,
respecting nested parens and quoted literals; `none` when unbalanced. -/
def takeBalancedGo : List Char → Nat → Option Char → List Char → Option (List Char)
  | [], _, _, _ => none
  | c :: rest, d, some q, acc =>
    if c == '\\' then
      match rest with
      | c2 :: rest2 => takeBalancedGo rest2 d (some q) (c2 :: c :: acc)
      | [] => none
    else if c == q then takeBalancedGo rest d none (c :: acc)
    else takeBalancedGo rest d (some q) (c :: acc)
  | c :: rest, d, none, acc =>
    if c == '(' then takeBalancedGo rest (d + 1) none (c :: acc)
    else if c == ')' then
      if d == 0 then some acc.reverse else takeBalancedGo rest (d - 1) none (c :: acc)
    else if c == '"' || c == '\'' then takeBalancedGo rest d (some c) (c :: acc)
    else takeBalancedGo rest d none (c :: acc)

def takeBalanced (l : List Char) : Option (List Char) := takeBalancedGo l 0 none []

/-- DOM-reference-shaped identifier chain: the last dot-component is a
naming convention for an already-constructed node. -/
def jsDomRefOk (a : List Char) : Bool :=
  let comp := ((splitOnChar '.' a).getLastD [])
  comp == chars "el" || comp == chars "parentNode" ||
  endsWithChars (chars "El") comp || startsWithChars (chars "$") comp

/-- Allow-list for content-insertion arguments (`append`, `prepend` and
the other insertion calls): a leading-`$` reference or selector/tag
construction, a sanitizing-helper call, a plain literal with no markup,
or a DOM-reference-shaped identifier chain. -/
def jsArgSafeContent (a : List Char) : Bool :=
  a.isEmpty ||
  startsWithChars (chars "$") a ||
  startsWithChars (chars "HtmlUtils.") a ||
  startsWithChars (chars "edx.HtmlUtils.") a ||
  (match a with
   | q :: rest =>
     if q == '"' || q == '\'' then
       match readJsString q rest with
       | some (content, after) =>
         (trimBoth after).isEmpty && (findHtml content).isNone
       | none => false
     else jsDomRefOk a
   | [] => false)

/-- Allow-list for the raw-html setter `.html(arg)`: empty, a quoted
empty string, or a sanitizing-helper call. -/
def jsArgSafeHtml (a : List Char) : Bool :=
  a.isEmpty || a == chars "''" || a == chars "\"\"" ||
  startsWithChars (chars "HtmlUtils.") a ||
  startsWithChars (chars "edx.HtmlUtils.") a

/-- Detect a method call `pat` (e.g. `".append("`), classify its
argument with `safe`; a call on the sanitizing-helper namespace itself
is never flagged.  An unbalanced argument is unsafe. -/
def jsCallArgUnsafe (pat : List Char) (safe : List Char → Bool)
    (line : List Char) : Bool :=
  match findSub pat line with
  | none => false
  | some i =>
    if endsWithChars (chars "HtmlUtils") (line.take i) then false
    else
      match takeBalanced (line.drop (i + pat.length)) with
      | some arg => !safe (trimBoth arg)
      | none => true

/-- Insert-into-target family: flag when the receiver expression is not
itself a DOM-reference-shaped identifier chain. -/
def jsTargetUnsafe (pat : List Char) (line : List Char) : Bool :=
  match findSub pat line with
  | none => false
  | some i => !jsDomRefOk (trimBoth (line.take i))

/-- String-concatenation-with-markup family: some literal operand of a
`+` chain contains a recognizable HTML tag pattern (one violation per
line for the browser dialect). -/
inductive JsCMode where
  | norm (plus : Bool)
  | instr (q : Char) (plus : Bool) (acc : List Char)
  | afterlit (plus : Bool) (content : List Char)

def jsConcatHit : List Char → JsCMode → Bool
  | [], .afterlit plus content => plus && (findHtml content).isSome
  | [], .instr _ plus acc => plus && (findHtml acc.reverse).isSome
  | [], .norm _ => false
  | c :: rest, .norm plus =>
    if c == '"' || c == '\'' then jsConcatHit rest (.instr c plus [])
    else if c == '+' then jsConcatHit rest (.norm true)
    else if c == ' ' || c == '\t' then jsConcatHit rest (.norm plus)
    else jsConcatHit rest (.norm false)
  | c :: rest, .instr q plus acc =>
    if c == '\\' then
      match rest with
      | c2 :: rest2 => jsConcatHit rest2 (.instr q plus (c2 :: c :: acc))
      | [] => plus && (findHtml acc.reverse).isSome
    else if c == q then jsConcatHit rest (.afterlit plus acc.reverse)
    else jsConcatHit rest (.instr q plus (c :: acc))
  | c :: rest, .afterlit plus content =>
    if c == ' ' || c == '\t' then jsConcatHit rest (.afterlit plus content)
    else if c == '+' then
      (findHtml content).isSome || jsConcatHit rest (.norm true)
    else
      (plus && (findHtml content).isSome) ||
      (if c == '"' || c == '\'' then jsConcatHit rest (.instr c false [])
       else jsConcatHit rest (.norm false))

/-- Bare `interpolate(...)`: an occurrence not qualified by a namespace. -/
def jsInterpolateHit (line : List Char) : Bool :=
  match findSub (chars "interpolate(") line with
  | none => false
  | some i =>
    match (line.take i).getLast? with
    | none => true
    | some c => !(c == '.' || isWordChar c)

/-- `.escape(...)` on a receiver other than the designated safe alias. -/
def jsEscapeHit (line : List Char) : Bool :=
  match findSub (chars ".escape(") line with
  | none => false
  | some i =>
    match (line.take i).reverse with
    | '_' :: r =>
      match r with
      | [] => false
      | c :: _ => isWordChar c || c == '$'
    | _ => true

/-- All browser-script families on one line; commented-out lines are
excluded from every family. -/
def jsLineViolations (ln : Nat) (line : List Char) : List Violation :=
  if startsWithChars (chars "//") (skipWs line) then []
  else
    emitIf (jsConcatHit line (.norm false)) .javascript_concat_html ln 0 ++
    emitIf (jsCallArgUnsafe (chars ".append(") jsArgSafeContent line)
      .javascript_jquery_append ln 0 ++
    emitIf (jsCallArgUnsafe (chars ".prepend(") jsArgSafeContent line)
      .javascript_jquery_prepend ln 0 ++
    emitIf (jsCallArgUnsafe (chars ".unwrap(") jsArgSafeContent line ||
            jsCallArgUnsafe (chars ".wrap(") jsArgSafeContent line ||
            jsCallArgUnsafe (chars ".wrapAll(") jsArgSafeContent line ||
            jsCallArgUnsafe (chars ".wrapInner(") jsArgSafeContent line ||
            jsCallArgUnsafe (chars ".after(") jsArgSafeContent line ||
            jsCallArgUnsafe (chars ".before(") jsArgSafeContent line ||
            jsCallArgUnsafe (chars ".replaceAll(") jsArgSafeContent line ||
            jsCallArgUnsafe (chars ".replaceWith(") jsArgSafeContent line)
      .javascript_jquery_insertion ln 0 ++
    emitIf (jsTargetUnsafe (chars ".appendTo(") line ||
            jsTargetUnsafe (chars ".prependTo(") line ||
            jsTargetUnsafe (chars ".insertAfter(") line ||
            jsTargetUnsafe (chars ".insertBefore(") line)
      .javascript_jquery_insert_into_target ln 0 ++
    emitIf (jsCallArgUnsafe (chars ".html(") jsArgSafeHtml line)
      .javascript_jquery_html ln 0 ++
    emitIf (jsInterpolateHit line) .javascript_interpolate ln 0 ++
    emitIf (jsEscapeHit line) .javascript_escape ln 0

def jsFindViolations (cs : List Char) : List Violation :=
  (splitLinesC cs).enum.flatMap (fun p => jsLineViolations (p.1 + 1) p.2)

/-- The browser-script scanner: per-line family detection followed by
the shared disable-pragma pass. -/
def check_javascript_file_is_safe (text : String) : List Violation :=
  applyDisablePragmas (chars text) (jsFindViolations (chars text))

/-! ### Script scanner (server dialect)

Modelled from the spec §4.4 and §9: an explicit finite-state scanner
over the character stream (normal / comment / in-single-quote /
in-triple-quote), with a paren-depth stack recording at each open paren
the preceding identifier (the call name).  A structural parse failure
(unbalanced quotes or parens) yields a single parse-error violation and
aborts the other checks for the file. -/

/-- A string literal found by the lexer, with the lexical context the
rules need: the line its opening delimiter is on, its inner text, the
call-name stack at its opening, whether the previous operand-level token
was `+`, and the text following its closing delimiter. -/
structure PyLit where
  startLine : Nat
  content : List Char
  stack : List (List Char)
  prevPlus : Bool
  rest : List Char
deriving DecidableEq, Repr

structure PyCtx where
  line : Nat
  stack : List (List Char)
  word : List Char
  prevPlus : Bool
  bad : Bool
deriving Repr

structure PyStr where
  q : Char
  triple : Bool
  startLine : Nat
  acc : List Char
deriving Repr

inductive PyMode where
  | norm
  | comment
  | instr (s : PyStr)

/-- The server-script lexer.  Returns the literals in detection order
and whether a structural parse failure occurred (unterminated literal,
close paren with no matching open, or an open paren never closed).
`ctx.word` and `s.acc` are kept most-recent-first.  The fuel argument
only forces structural recursion: every step consumes at least one
character, and `pyLex` supplies one unit of fuel per character plus one,
so the fuel-exhaustion case is never reached. -/
def pyLexGo : Nat → List Char → PyCtx → PyMode → List PyLit → (List PyLit × Bool)
  | 0, _, _, _, lits => (lits.reverse, true)
  | _ + 1, [], ctx, .norm, lits => (lits.reverse, ctx.bad || !ctx.stack.isEmpty)
  | _ + 1, [], ctx, .comment, lits => (lits.reverse, ctx.bad || !ctx.stack.isEmpty)
  | _ + 1, [], _, .instr _, lits => (lits.reverse, true)
  | fuel + 1, c :: rest, ctx, .comment, lits =>
    if c == '\n' then
      pyLexGo fuel rest { ctx with line := ctx.line + 1, word := [], prevPlus := false }
        .norm lits
    else pyLexGo fuel rest ctx .comment lits
  | fuel + 1, c :: rest, ctx, .instr s, lits =>
    if s.triple then
      if c == s.q then
        match rest with
        | c2 :: c3 :: r =>
          if c2 == s.q && c3 == s.q then
            pyLexGo fuel r { ctx with word := [], prevPlus := false } .norm
              ({ startLine := s.startLine, content := s.acc.reverse,
                 stack := ctx.stack, prevPlus := ctx.prevPlus, rest := r } :: lits)
          else pyLexGo fuel rest ctx (.instr { s with acc := c :: s.acc }) lits
        | _ => pyLexGo fuel rest ctx (.instr { s with acc := c :: s.acc }) lits
      else if c == '\\' then
        match rest with
        | c2 :: r2 => pyLexGo fuel r2 ctx (.instr { s with acc := c2 :: c :: s.acc }) lits
        | [] => (lits.reverse, true)
      else if c == '\n' then
        pyLexGo fuel rest { ctx with line := ctx.line + 1 }
          (.instr { s with acc := c :: s.acc }) lits
      else pyLexGo fuel rest ctx (.instr { s with acc := c :: s.acc }) lits
    else
      if c == '\\' then
        match rest with
        | c2 :: r2 => pyLexGo fuel r2 ctx (.instr { s with acc := c2 :: c :: s.acc }) lits
        | [] => (lits.reverse, true)
      else if c == s.q then
        pyLexGo fuel rest { ctx with word := [], prevPlus := false } .norm
          ({ startLine := s.startLine, content := s.acc.reverse,
             stack := ctx.stack, prevPlus := ctx.prevPlus, rest := rest } :: lits)
      else if c == '\n' then (lits.reverse, true)
      else pyLexGo fuel rest ctx (.instr { s with acc := c :: s.acc }) lits
  | fuel + 1, c :: rest, ctx, .norm, lits =>
    if c == '\n' then
      pyLexGo fuel rest { ctx with line := ctx.line + 1, word := [], prevPlus := false }
        .norm lits
    else if c == '#' then pyLexGo fuel rest ctx .comment lits
    else if c == '"' || c == '\'' then
      match rest with
      | c2 :: c3 :: r =>
        if c2 == c && c3 == c then
          pyLexGo fuel r ctx
            (.instr { q := c, triple := true, startLine := ctx.line, acc := [] }) lits
        else
          pyLexGo fuel rest ctx
            (.instr { q := c, triple := false, startLine := ctx.line, acc := [] }) lits
      | _ =>
        pyLexGo fuel rest ctx
          (.instr { q := c, triple := false, startLine := ctx.line, acc := [] }) lits
    else if c == '(' then
      pyLexGo fuel rest { ctx with stack := ctx.word.reverse :: ctx.stack,
                                   word := [], prevPlus := false } .norm lits
    else if c == ')' then
      match ctx.stack with
      | [] => pyLexGo fuel rest { ctx with bad := true, word := [], prevPlus := false } .norm lits
      | _ :: st =>
        pyLexGo fuel rest { ctx with stack := st, word := [], prevPlus := false } .norm lits
    else if c == '+' then
      pyLexGo fuel rest { ctx with word := [], prevPlus := true } .norm lits
    else if c == ' ' || c == '\t' then
      pyLexGo fuel rest { ctx with word := [] } .norm lits
    else if isWordChar c then
      pyLexGo fuel rest { ctx with word := c :: ctx.word, prevPlus := false } .norm lits
    else
      pyLexGo fuel rest { ctx with word := [], prevPlus := false } .norm lits

def pyLex (cs : List Char) : List PyLit × Bool :=
  pyLexGo (cs.length + 1) cs
    { line := 1, stack := [], word := [], prevPlus := false, bad := false } .norm []

/-- Whether the server-script lexer fails structurally on this text. -/
def pyFails (text : String) : Bool := (pyLex (chars text)).2

/-- The enclosing `def` heuristic: a literal inside the body of a method
named `__repr__` is exempt.  Modelled from the in-repo test
`test_check_python_with_text_and_html` (the spec does not state this
exemption): the most recent `def` line before the literal's line decides. -/
def inRepr (lines : List (List Char)) (startLine : Nat) : Bool :=
  match ((lines.take (startLine - 1)).filter
      (fun l => containsSub (chars "def ") l)).getLast? with
  | some dl => containsSub (chars "def __repr__") dl
  | none => false

/-- The per-literal rules of the server-script dialect:
* concat-with-markup: one violation per literal operand of a `+` chain
  containing an HTML tag pattern;
* interpolation-required: `%`-interpolation applied to a literal with
  markup;
* close-before-wrap: `.format()` applied to a bare literal while an
  enclosing `HTML(`/`Text(` wrapper call is still open, so the inner
  expression closes its parens before the enclosing wrapper's do;
* format-without-wrapper: `.format()` applied to a bare literal whose
  argument list itself builds `HTML(...)`/`Text(...)` values;
* wrap-required: a literal with markup that participates in a call or a
  `.format()` without being the direct argument of the sanctioned
  HTML-wrapping call; its line is the line of the offending tag. -/
def violationsOfLit (lines : List (List Char)) (lit : PyLit) : List Violation :=
  let htmlOff := findHtml lit.content
  let restT := skipWs lit.rest
  let fmt := startsWithChars (chars ".format(") restT
  let pct := startsWithChars (chars "%") restT
  let plus := lit.prevPlus || startsWithChars (chars "+") restT
  let insideW := lit.stack.contains (chars "HTML") || lit.stack.contains (chars "Text")
  let topHtml := lit.stack.headD [] == chars "HTML"
  let args := if fmt then (takeBalanced (restT.drop 8)).getD [] else []
  let argsW := containsSub (chars "HTML(") args || containsSub (chars "Text(") args
  if inRepr lines lit.startLine then []
  else
    emitIf (htmlOff.isSome && plus) .python_concat_html lit.startLine 0 ++
    emitIf (htmlOff.isSome && pct) .python_interpolate_html lit.startLine 0 ++
    emitIf (fmt && insideW) .python_close_before_format lit.startLine 0 ++
    emitIf (fmt && argsW) .python_requires_html_or_text lit.startLine 0 ++
    emitIf (htmlOff.isSome && !topHtml && !plus && !pct &&
            (!lit.stack.isEmpty || fmt))
      .python_wrap_html lit.startLine (htmlOff.getD 0)

/-- Whole-line checks of the server-script dialect: the deprecated
unescaped display-name accessor and escape-by-hand substitution. -/
def pyLineChecks (lines : List (List Char)) : List Violation :=
  lines.enum.flatMap (fun p =>
    if startsWithChars (chars "#") (skipWs p.2) then []
    else
      emitIf (containsSub (chars "display_name_with_default_escaped") p.2)
        .python_deprecated_display_name (p.1 + 1) 0 ++
      emitIf (containsSub (chars ".replace('<', '&lt;')") p.2)
        .python_custom_escape (p.1 + 1) 0)

/-- Detection pass of the server-script dialect: a structural parse
failure yields a single parse-error violation and nothing else;
otherwise the per-literal and per-line checks run. -/
def pyFindViolations (cs : List Char) : List Violation :=
  match pyLex cs with
  | (_, true) =>
    [{ rule := .python_parse_error, line := 1, startLine := 1,
       column := 0, isDisabled := false }]
  | (lits, false) =>
    lits.flatMap (violationsOfLit (splitLinesC cs)) ++ pyLineChecks (splitLinesC cs)

/-- The server-script scanner: lexical pass, rule checks, then the
shared disable-pragma pass. -/
def check_python_file_is_safe (text : String) : List Violation :=
  applyDisablePragmas (chars text) (pyFindViolations (chars text))

/-! ### Structural lemmas -/

theorem mem_emitIf {v : Violation} {b : Bool} {r : RuleT} {s d : Nat}
    (h : v ∈ emitIf b r s d) : v.rule = r ∧ v.startLine = s ∧ v.line = s + d := by
  unfold emitIf at h
  split at h
  · simp only [List.mem_singleton] at h
    subst h
    exact ⟨rfl, rfl, rfl⟩
  · simp at h

/-- The disable pass with an empty pending table only sets every
`disabled` flag to false. -/
theorem consume_nil (vs : List Violation) :
    consumeViolations [] vs = vs.map (fun v => { v with isDisabled := false }) := by
  induction vs with
  | nil => rfl
  | cons v vs ih =>
    show { v with isDisabled := false } :: consumeViolations [] vs =
      { v with isDisabled := false } :: vs.map (fun v => { v with isDisabled := false })
    rw [ih]

/-- The disable pass never changes rule, line or start line. -/
theorem mem_consume {v' : Violation} :
    ∀ (p : List (List Char × Nat)) (vs : List Violation),
      v' ∈ consumeViolations p vs →
      ∃ v ∈ vs, v'.rule = v.rule ∧ v'.line = v.line ∧ v'.startLine = v.startLine := by
  intro p vs
  induction vs generalizing p with
  | nil => intro h; simp [consumeViolations] at h
  | cons v vs ih =>
    intro h
    unfold consumeViolations at h
    have step : ∀ (b : Bool) (p' : List (List Char × Nat)),
        v' ∈ { v with isDisabled := b } :: consumeViolations p' vs →
        ∃ w ∈ v :: vs, v'.rule = w.rule ∧ v'.line = w.line ∧ v'.startLine = w.startLine := by
      intro b p' hmem
      rcases List.mem_cons.mp hmem with hmem | hmem
      · exact ⟨v, List.mem_cons_self v vs, by subst hmem; exact ⟨rfl, rfl, rfl⟩⟩
      · obtain ⟨w, hw, hr⟩ := ih p' hmem
        exact ⟨w, List.mem_cons_of_mem v hw, hr⟩
    split at h
    · split at h
      · exact step _ _ h
      · exact step _ _ h
    · exact step _ _ h

/-- The disable pass preserves the rule sequence. -/
theorem consume_map_rule :
    ∀ (p : List (List Char × Nat)) (vs : List Violation),
      (consumeViolations p vs).map (fun v => v.rule) = vs.map (fun v => v.rule) := by
  intro p vs
  induction vs generalizing p with
  | nil => rfl
  | cons v vs ih =>
    unfold consumeViolations
    split
    · split
      · simp only [List.map_cons]
        rw [ih]
      · simp only [List.map_cons]
        rw [ih]
    · simp only [List.map_cons]
      rw [ih]

/-- Single consumption: with exactly one pending pragma for the rule of
every violation in the list, the disable pass disables precisely the
first violation at or after the pragma's line and leaves every other
violation enabled. -/
theorem consume_single (R : RuleT) (L : Nat) :
    ∀ vs : List Violation, (∀ v ∈ vs, v.rule = R) →
      consumeViolations [(chars (ruleId R), L)] vs = disableFirstMatching L vs := by
  intro vs
  induction vs with
  | nil => intro h; rfl
  | cons v vs ih =>
    intro h
    have hv : v.rule = R := h v (List.mem_cons_self v vs)
    have hbeq : (chars (ruleId R) == chars (ruleId R)) = true := beq_self_eq_true _
    have hl : lookupPending [(chars (ruleId R), L)] (chars (ruleId v.rule)) = some L := by
      rw [hv]
      simp [lookupPending, List.find?, hbeq]
    have he : erasePending [(chars (ruleId R), L)] (chars (ruleId v.rule)) = [] := by
      rw [hv]
      simp [erasePending, List.filter, hbeq]
    unfold consumeViolations disableFirstMatching
    split
    next L' heq =>
      rw [hl] at heq
      injection heq with hL
      subst hL
      by_cases hle : L ≤ v.line
      · rw [if_pos hle, if_pos hle, he, consume_nil]
      · rw [if_neg hle, if_neg hle, ih (fun w hw => h w (List.mem_cons_of_mem v hw))]
    next heq =>
      rw [hl] at heq
      exact Option.noConfusion heq

/-- Every violation of the Underscore detection pass carries the
unescaped-tag rule. -/
theorem usFind_rule :
    ∀ (l : List Char) (n : Nat) (v : Violation), v ∈ usFindViolations l n →
      v.rule = .underscore_not_escaped := by
  intro l
  induction l with
  | nil => intro n v hv; simp [usFindViolations] at hv
  | cons c rest ih =>
    intro n v hv
    unfold usFindViolations at hv
    split at hv
    · exact ih _ v hv
    · split at hv
      · rcases List.mem_append.mp hv with h | h
        · exact (mem_emitIf h).1
        · exact ih _ v h
      · exact ih _ v hv

/-- Every violation of the Underscore scanner carries the unescaped-tag
rule (in particular it is never the parse-error rule). -/
theorem underscore_rule (text : String) (v : Violation)
    (hv : v ∈ check_underscore_file_is_safe text) : v.rule = .underscore_not_escaped := by
  obtain ⟨w, hw, hr, -, -⟩ := mem_consume _ _ hv
  rw [hr]
  exact usFind_rule _ _ w hw

/-- No browser-script family emits the server-script parse-error rule. -/
theorem jsLine_not_parse_error (n : Nat) (l : List Char) (v : Violation)
    (hv : v ∈ jsLineViolations n l) : v.rule ≠ .python_parse_error := by
  unfold jsLineViolations at hv
  split at hv
  · simp at hv
  · simp only [List.mem_append] at hv
    rcases hv with ((((((h | h) | h) | h) | h) | h) | h) | h <;>
      (rw [(mem_emitIf h).1]; intro hc; exact absurd hc (by decide))

/-- The browser-script scanner never reports a parse error. -/
theorem javascript_not_parse_error (text : String) (v : Violation)
    (hv : v ∈ check_javascript_file_is_safe text) : v.rule ≠ .python_parse_error := by
  obtain ⟨w, hw, hr, -, -⟩ := mem_consume _ _ hv
  rw [hr]
  obtain ⟨p, -, hp⟩ := List.mem_flatMap.mp hw
  exact jsLine_not_parse_error _ _ w hp

/-- Per-literal checks respect `start_line ≤ line`. -/
theorem violationsOfLit_le (lines : List (List Char)) (lit : PyLit) (v : Violation)
    (hv : v ∈ violationsOfLit lines lit) : v.startLine ≤ v.line := by
  simp only [violationsOfLit] at hv
  split at hv
  · simp at hv
  · simp only [List.mem_append] at hv
    rcases hv with (((h | h) | h) | h) | h <;>
      (obtain ⟨-, hs, hl⟩ := mem_emitIf h; omega)

/-- Per-line checks respect `start_line ≤ line`. -/
theorem pyLineChecks_le (lines : List (List Char)) (v : Violation)
    (hv : v ∈ pyLineChecks lines) : v.startLine ≤ v.line := by
  obtain ⟨p, -, hp⟩ := List.mem_flatMap.mp hv
  split at hp
  · simp at hp
  · rcases List.mem_append.mp hp with h | h <;>
      (obtain ⟨-, hs, hl⟩ := mem_emitIf h; omega)

/-- The whole server-script detection pass respects `start_line ≤ line`. -/
theorem pyFind_le (cs : List Char) (v : Violation)
    (hv : v ∈ pyFindViolations cs) : v.startLine ≤ v.line := by
  unfold pyFindViolations at hv
  rcases hlex : pyLex cs with ⟨lits, fail⟩
  rw [hlex] at hv
  cases fail
  · rcases List.mem_append.mp hv with h | h
    · obtain ⟨lit, -, hmem⟩ := List.mem_flatMap.mp h
      exact violationsOfLit_le _ lit v hmem
    · exact pyLineChecks_le _ v h
  · simp only [List.mem_singleton] at hv
    subst hv
    exact Nat.le_refl _

/-! ### Claims -/

/-- Claim C1: for every rule R, a valid disable pragma for R on line L
sets `disabled = true` on exactly one violation of R — the first one (in
ascending line order, ties by detection order) whose line V satisfies
L ≤ V — and is then consumed, so a second violation of R keeps
`disabled = false`.  The general single-consumption law is stated on the
shared engine (`consumeViolations` against the spec-side
`disableFirstMatching`); the pragma-before, pragma-same-line-after, and
pragma-on-later-line cases are settled on the full Underscore pipeline. -/
theorem underscore_disable_pragma_single_consumption :
    (∀ (R : RuleT) (L : Nat) (vs : List Violation), (∀ v ∈ vs, v.rule = R) →
      consumeViolations [(chars (ruleId R), L)] vs = disableFirstMatching L vs) ∧
    (check_underscore_file_is_safe
        "\n<% // xss-lint: disable=underscore-not-escaped %>\n<%= message %>\n<%= message %>\n").map
      (fun v => (v.line, v.isDisabled)) = [(3, true), (4, false)] ∧
    (check_underscore_file_is_safe
        "<%= message %><% // xss-lint: disable=underscore-not-escaped %>\n<%= message %>").map
      (fun v => (v.line, v.isDisabled)) = [(1, true), (2, false)] ∧
    (check_underscore_file_is_safe
        "<%= message %>\n<% // xss-lint: disable=underscore-not-escaped %>").map
      (fun v => (v.line, v.isDisabled)) = [(1, false)] :=
  ⟨fun R L vs h => consume_single R L vs h, by decide, by decide, by decide⟩

/-- Witness for claim C1: the general law applied to a concrete pending
pragma (line 2) and two concrete violations (lines 3 and 4). -/
theorem underscore_disable_pragma_single_consumption_witness :
    (∀ v ∈ ([⟨.underscore_not_escaped, 3, 3, 0, false⟩,
             ⟨.underscore_not_escaped, 4, 4, 0, false⟩] : List Violation),
        v.rule = RuleT.underscore_not_escaped) ∧
    consumeViolations [(chars (ruleId .underscore_not_escaped), 2)]
        [⟨.underscore_not_escaped, 3, 3, 0, false⟩, ⟨.underscore_not_escaped, 4, 4, 0, false⟩] =
      disableFirstMatching 2
        [⟨.underscore_not_escaped, 3, 3, 0, false⟩, ⟨.underscore_not_escaped, 4, 4, 0, false⟩] :=
  ⟨by decide, underscore_disable_pragma_single_consumption.1 _ 2 _ (by decide)⟩

/-- Claim C2: a literal wrapped by the HTML marker and `.format()`-ed
inside an enclosing Text-marker construct's argument list yields no
violation; when instead the inner wrapped-and-formatted expression
closes its parens before the enclosing wrapper's own argument list
closes, the file yields both a close-before-wrap and a requires-wrapper
violation; a doubly nested construct triggers the pair once per nesting
level (four violations for two levels). -/
theorem python_close_before_wrap_composition :
    check_python_file_is_safe
      "\nmsg = Text(\"Mixed {span_start}text{span_end}\").format(\n    span_start=HTML(\"<span>\"),\n    span_end=HTML(\"</span>\"),\n)\n" =
      [] ∧
    check_python_file_is_safe
      "msg = Text(\"{a}\").format(a=HTML(\"<b>\").format(x))" = [] ∧
    (check_python_file_is_safe
      "\nmsg = Text(\"Mixed {link_start}text{link_end}\".format(\n    link_start=HTML(\"<a href='{}'>\").format(url),\n    link_end=HTML(\"</a>\"),\n))\n").map
      (fun v => (v.rule, v.line)) =
      [(.python_close_before_format, 2), (.python_requires_html_or_text, 2)] ∧
    (check_python_file_is_safe
      "\nmsg = Text(\"Mixed {link_start}text{link_end}\".format(\n    link_start=HTML(\"<a href='{}'>\".format(HTML('<b>'))),\n    link_end=HTML(\"</a>\"),\n))\n").map
      (fun v => (v.rule, v.line)) =
      [(.python_close_before_format, 2), (.python_requires_html_or_text, 2),
       (.python_close_before_format, 3), (.python_requires_html_or_text, 3)] :=
  ⟨by decide, by decide, by decide, by decide⟩

/-- Claim C3: whenever the server-script lexer fails structurally
(unterminated quoted literal or unbalanced parens), the server-script
scanner emits exactly one parse-error violation and no other violation
for that file; the two other scanners never emit the parse-error rule;
concrete unterminated-literal and unbalanced-paren runs are evaluated. -/
theorem python_parse_error_exclusivity :
    (∀ text : String, pyFails text = true →
      (check_python_file_is_safe text).map (fun v => v.rule) = [.python_parse_error]) ∧
    (∀ (text : String) (v : Violation), v ∈ check_underscore_file_is_safe text →
      v.rule ≠ .python_parse_error) ∧
    (∀ (text : String) (v : Violation), v ∈ check_javascript_file_is_safe text →
      v.rule ≠ .python_parse_error) ∧
    (check_python_file_is_safe "m = \" <p> \" + message + \" broken string").map
      (fun v => v.rule) = [.python_parse_error] ∧
    (check_python_file_is_safe "msg = HTML('<span></span>'").map
      (fun v => v.rule) = [.python_parse_error] := by
  refine ⟨?_, ?_, javascript_not_parse_error, by decide, by decide⟩
  · intro text hf
    unfold check_python_file_is_safe applyDisablePragmas
    rw [consume_map_rule]
    unfold pyFails at hf
    unfold pyFindViolations
    rcases hlex : pyLex (chars text) with ⟨lits, fail⟩
    rw [hlex] at hf
    have hf' : fail = true := hf
    subst hf'
    rfl
  · intro text v hv
    rw [underscore_rule text v hv]
    decide

/-- Witness for claim C3: the parse-failure hypothesis holds at the
unterminated-literal input of the repository's concat test. -/
theorem python_parse_error_exclusivity_witness :
    pyFails "m = \" <p> \" + message + \" broken string" = true ∧
    (check_python_file_is_safe "m = \" <p> \" + message + \" broken string").map
      (fun v => v.rule) = [RuleT.python_parse_error] :=
  ⟨by decide, python_parse_error_exclusivity.1 _ (by decide)⟩

/-- Claim C4: the auto-escaping tag form `<%- ... %>` never produces a
violation; each occurrence of the raw form `<%= ... %>` (single-line or
multi-line) produces exactly one violation whose line is the opening
delimiter's line, unless the trimmed inner expression is a designated
HTML-sanitizing helper call or the designated library escape-helper
call. -/
theorem underscore_unescaped_tag_scanning :
    check_underscore_file_is_safe
      "\n<%- gettext('Single Line') %>\n\n<%-\n    gettext('Multiple Lines')\n%>\n" = [] ∧
    (check_underscore_file_is_safe
      "\n<%= gettext('Single Line') %>\n\n<%=\n    gettext('Multiple Lines')\n%>\n").map
      (fun v => (v.rule, v.line, v.isDisabled)) =
      [(.underscore_not_escaped, 2, false), (.underscore_not_escaped, 4, false)] ∧
    check_underscore_file_is_safe "<%= HtmlUtils.ensureHtml(message) %>" = [] ∧
    check_underscore_file_is_safe "<%= _.escape(message) %>" = [] :=
  ⟨by decide, by decide, by decide, by decide⟩

/-- Claim C5: `test.append("<div/>")` yields exactly one violation, of
the jquery-append rule, and nothing from any other family;
`test.append(test.render().el)` yields no violations because the
argument is a DOM-reference-shaped identifier chain. -/
theorem javascript_append_family_independence :
    check_javascript_file_is_safe "test.append(\"<div/>\")" =
      [⟨.javascript_jquery_append, 1, 1, 0, false⟩] ∧
    check_javascript_file_is_safe "test.append(test.render().el)" = [] :=
  ⟨by decide, by decide⟩

/-- Claim C6: a literal string concatenation with markup yields one
violation per literal operand containing a recognizable HTML tag
pattern — two for `m = "<p>" + message + "</p>"` — and none when every
literal operand is tag-free. -/
theorem python_concat_per_operand :
    (check_python_file_is_safe "m = \"<p>\" + message + \"</p>\"").map
      (fun v => (v.rule, v.line)) =
      [(.python_concat_html, 1), (.python_concat_html, 1)] ∧
    check_python_file_is_safe "m = \"Plain text \" + message + \"plain text\"" = [] :=
  ⟨by decide, by decide⟩

/-- Claim C7: `start_line ≤ line` holds for every emitted violation of
the server-script scanner, and for a construct spanning multiple lines
the `start_line` is the line where the literal began: a triple-quoted
literal opening on line 2 with markup on line 3 yields `start_line = 2`,
and one opening on line 6 yields `start_line = 6`. -/
theorem python_multiline_start_line :
    (∀ (text : String) (v : Violation), v ∈ check_python_file_is_safe text →
      v.startLine ≤ v.line) ∧
    (check_python_file_is_safe
      "\nresponse_str = textwrap.dedent('''\n    <div>\n        <h3 class=\"result\">{response}</h3>\n    </div>\n''').format(response=response_text)\n").map
      (fun v => (v.rule, v.startLine, v.line)) = [(.python_wrap_html, 2, 3)] ∧
    (check_python_file_is_safe
      "\ndef function(self):\n    '''\n    Function comment.\n    '''\n    response_str = '''<h3 class=\"result\">{response}</h3>'''.format(response=response_text)\n").map
      (fun v => (v.rule, v.startLine, v.line)) = [(.python_wrap_html, 6, 6)] := by
  refine ⟨?_, by decide, by decide⟩
  intro text v hv
  obtain ⟨w, hw, -, hl, hs⟩ := mem_consume _ _ hv
  rw [hl, hs]
  exact pyFind_le _ w hw

/-- Witness for claim C7: membership of the concrete wrap-required
violation of the line-6 triple-quote run. -/
theorem python_multiline_start_line_witness :
    (⟨RuleT.python_wrap_html, 6, 6, 0, false⟩ : Violation) ∈
      check_python_file_is_safe
        "\ndef function(self):\n    '''\n    Function comment.\n    '''\n    response_str = '''<h3 class=\"result\">{response}</h3>'''.format(response=response_text)\n" ∧
    (6 : Nat) ≤ 6 :=
  ⟨by decide,
   python_multiline_start_line.1
     "\ndef function(self):\n    '''\n    Function comment.\n    '''\n    response_str = '''<h3 class=\"result\">{response}</h3>'''.format(response=response_text)\n"
     ⟨RuleT.python_wrap_html, 6, 6, 0, false⟩ (by decide)⟩

/-- Counterexample to claim C8 as stated: on the repository's own test
template line, five whitespace-delimited tokens precede the marker, so
the marker begins at token position 6; the claim says such a marker is
ignored entirely and the following violation stays enabled, but the
marker is recognized and the following violation is disabled. -/
theorem pragma_token_position_counterexample :
    tokenCount (chars " 1 2 3 4 5 ") = 5 ∧
    ¬ (pragmaRulesOfLine
        (chars " 1 2 3 4 5 xss-lint: disable=underscore-not-escaped %>") = []) ∧
    ¬ ((check_underscore_file_is_safe
        " 1 2 3 4 5 xss-lint: disable=underscore-not-escaped %>\n<%= message %>").map
        (fun v => v.isDisabled) = [false]) :=
  ⟨by decide, by decide, by decide⟩

/-- Claim C8 amended: a disable marker preceded by at most 5
whitespace-delimited tokens on its line (token position ≤ 6) is honored;
a marker preceded by 6 or more tokens (token position ≥ 7) is ignored
entirely, leaving the following violation enabled. -/
theorem pragma_token_position_amended :
    pragmaRulesOfLine
      (chars " 1 2 3 4 5 xss-lint: disable=underscore-not-escaped %>") =
      [chars "underscore-not-escaped"] ∧
    pragmaRulesOfLine
      (chars " 1 2 3 4 5 6 xss-lint: disable=underscore-not-escaped %>") = [] ∧
    (check_underscore_file_is_safe
      "// This test does not use proper Underscore.js Template syntax\n// But, it is just testing that a maximum of 5 non-whitespace\n// are used to designate start of line for disabling the next line.\n 1 2 3 4 5 xss-lint: disable=underscore-not-escaped %>\n<%= message %>\n 1 2 3 4 5 6 xss-lint: disable=underscore-not-escaped %>\n<%= message %>").map
      (fun v => (v.line, v.isDisabled)) = [(5, true), (7, false)] :=
  ⟨by decide, by decide, by decide⟩

/-- Claim C9: a raw regex literal whose angle-bracket pattern is a regex
named group yields no violation under `.format()`, even though the `<`
in `(?P<id>` is immediately followed by a letter, so the stated
tag-name-character-class narrowing alone would match it. -/
theorem python_regex_named_group_exclusion :
    check_python_file_is_safe
      "r'regex with {} and named group(?P<id>\\d+)?$'.format(test)" = [] ∧
    hasTagStartNaive (chars "regex with {} and named group(?P<id>\\d+)?$") = true :=
  ⟨by decide, by decide⟩

/-- Claim C10: a literal with an HTML-tag-like pattern built via
`.format()` inside the body of a method named `__repr__` produces no
violation, while the same construct inside any other method is flagged
wrap-required.  (The exemption is modelled from the repository's test
suite; the spec does not state it.) -/
theorem python_repr_exemption :
    check_python_file_is_safe
      "\ndef __repr__(self):\n    # Assume repr implementations are safe, and not HTML\n    return '<CCXCon {}>'.format(self.title)\n" =
      [] ∧
    (check_python_file_is_safe
      "\ndef function(self):\n    return '<CCXCon {}>'.format(self.title)\n").map
      (fun v => (v.rule, v.line)) = [(.python_wrap_html, 3)] :=
  ⟨by decide, by decide⟩

end XssLint

/-!
### Model validation

Evaluations of the modelled scanners on the remaining inputs of the
repository's test suite (`scripts/xss_utils/tests/test_linters.py`);
the inputs already used by claim settlements above are not repeated.
-/

section ModelValidation
open XssLint

example : check_javascript_file_is_safe "test.append( test.render().el )" = [] := by decide

example : check_javascript_file_is_safe "test.append(testEl)" = [] := by decide

example : check_javascript_file_is_safe "test.append($test)" = [] := by decide

example : check_javascript_file_is_safe "test.append(\"plain text\")" = [] := by decide

example : check_javascript_file_is_safe "graph.svg.append(\"g\")" = [] := by decide

example : check_javascript_file_is_safe "test.append( $( \"<div>\" ) )" = [] := by decide

example : check_javascript_file_is_safe
    "test.append(HtmlUtils.ensureHtml(htmlSnippet).toString())" = [] := by decide

example : check_javascript_file_is_safe "HtmlUtils.append($el, someHtml)" = [] := by decide

example : (check_javascript_file_is_safe "test.append(\"fail on concat\" + testEl)").map
    (fun v => v.rule) = [.javascript_jquery_append] := by decide

example : (check_javascript_file_is_safe "test.append(message)").map
    (fun v => v.rule) = [.javascript_jquery_append] := by decide

example : (check_javascript_file_is_safe "var m = \"<p>\" + message + \"</p>\"").map
    (fun v => v.rule) = [.javascript_concat_html] := by decide

example : check_javascript_file_is_safe "var m = \"Plain text \" + message + \"plain text\"" =
    [] := by decide

example : check_javascript_file_is_safe "  // var m = \"<p>\" + commentedOutMessage + \"</p>\"" =
    [] := by decide

example : (check_javascript_file_is_safe "var m = \" <p> \" + message + \" broken string").map
    (fun v => v.rule) = [.javascript_concat_html] := by decide

example : (check_javascript_file_is_safe "test.prepend(\"broken string)").map
    (fun v => v.rule) = [.javascript_jquery_prepend] := by decide

example : (check_javascript_file_is_safe "test.unwrap(anything)").map
    (fun v => v.rule) = [.javascript_jquery_insertion] := by decide

example : check_javascript_file_is_safe
    "test.replaceWith(edx.HtmlUtils.HTML(htmlString).toString())" = [] := by decide

example : check_javascript_file_is_safe "  element.parentNode.appendTo(target);" = [] := by decide

example : (check_javascript_file_is_safe "anycall().appendTo(target)").map
    (fun v => v.rule) = [.javascript_jquery_insert_into_target] := by decide

example : check_javascript_file_is_safe "test.html( '' )" = [] := by decide

example : (check_javascript_file_is_safe "test.html(\"any string\")").map
    (fun v => v.rule) = [.javascript_jquery_html] := by decide

example : check_javascript_file_is_safe "HtmlUtils.setHtml($el, someHtml)" = [] := by decide

example : check_javascript_file_is_safe "StringUtils.interpolate()" = [] := by decide

example : (check_javascript_file_is_safe "interpolate(anything)").map
    (fun v => v.rule) = [.javascript_interpolate] := by decide

example : check_javascript_file_is_safe "_.escape(message)" = [] := by decide

example : (check_javascript_file_is_safe "anything.escape(message)").map
    (fun v => v.rule) = [.javascript_escape] := by decide

example : check_python_file_is_safe "  # m = \"<p>\" + commentedOutMessage + \"</p>\"" = [] := by
  decide

example : (check_python_file_is_safe
    "\ncontext = \x7b\n    'display_name': self.display_name_with_default_escaped,\n\x7d\n").map
    (fun v => v.rule) = [.python_deprecated_display_name] := by decide

example : (check_python_file_is_safe "\nmsg = mmlans.replace('<', '&lt;')\n").map
    (fun v => v.rule) = [.python_custom_escape] := by decide

example : (check_python_file_is_safe
    "\nmsg = \"Mixed {span_start}text{span_end}\".format(\n    span_start=HTML(\"<span>\"),\n    span_end=HTML(\"</span>\"),\n)\n").map
    (fun v => (v.rule, v.line)) = [(.python_requires_html_or_text, 2)] := by decide

example : (check_python_file_is_safe
    "\nmsg = \"Mixed {span_start}{text}{span_end}\".format(\n    span_start=HTML(\"<span>\"),\n    text=Text(\"This should still break.\"),\n    span_end=HTML(\"</span>\"),\n)\n").map
    (fun v => (v.rule, v.line)) = [(.python_requires_html_or_text, 2)] := by decide

example : (check_python_file_is_safe
    "\nmsg = Text(\"Mixed {link_start}text{link_end}\").format(\n    link_start=HTML(\"<a href='{}'>\".format(url)),\n    link_end=HTML(\"</a>\"),\n)\n").map
    (fun v => (v.rule, v.line)) = [(.python_close_before_format, 3)] := by decide

example : (check_python_file_is_safe
    "\nmsg = \"Mixed {span_start}text{span_end}\".format(\n    span_start=\"<span>\",\n    span_end=\"</span>\",\n)\n").map
    (fun v => (v.rule, v.line)) =
    [(.python_wrap_html, 3), (.python_wrap_html, 4)] := by decide

example : check_python_file_is_safe
    "\nmsg = Text(_(\"String with multiple lines \"\n    \"{link_start}unenroll{link_end} \"\n    \"and final line\")).format(\n        link_start=HTML(\n            '<a id=\"link__over_multiple_lines\" '\n            'data-course-id=\"{course_id}\" '\n            'href=\"#test-modal\">'\n        ).format(\n            # Line comment with ' to throw off parser\n            course_id=course_overview.id\n        ),\n        link_end=HTML('</a>'),\n)\n" =
    [] := by decide

example : check_python_file_is_safe "msg = '<span></span>'" = [] := by decide

example : check_python_file_is_safe "msg = HTML('<span></span>')" = [] := by decide

example : (check_python_file_is_safe "msg = '<a href=\"{}\"'.format(url)").map
    (fun v => v.rule) = [.python_wrap_html] := by decide

example : (check_python_file_is_safe "msg = '{}</p>'.format(message)").map
    (fun v => v.rule) = [.python_wrap_html] := by decide

example : (check_python_file_is_safe "msg = '<a href=\"%s\"' % url").map
    (fun v => v.rule) = [.python_interpolate_html] := by decide

example : (check_python_file_is_safe "msg = '%s</p>' % message").map
    (fun v => v.rule) = [.python_interpolate_html] := by decide

example : (check_python_file_is_safe
    "\nmsg1 = '<a href=\"{}\"'.format(url)\nmsg2 = \"Mixed {link_start}text{link_end}\".format(\n    link_start=HTML(\"<a href='{}'>\".format(url)),\n    link_end=\"</a>\",\n)\nmsg3 = '<a href=\"%s\"' % url\n").map
    (fun v => (v.rule, v.line)) =
    [(.python_wrap_html, 2), (.python_requires_html_or_text, 3),
     (.python_close_before_format, 4), (.python_wrap_html, 5),
     (.python_interpolate_html, 7)] := by decide

example : (check_python_file_is_safe
    "\ndef function(self):\n    '''\n    Function comment.\n    '''\n    response_str = textwrap.dedent('''\n        <div>\n            \"\"\" Do we care about a nested triple quote? \"\"\"\n            <h3 class=\"result\">{response}</h3>\n        </div>\n    ''').format(response=response_text)\n").map
    (fun v => (v.rule, v.startLine)) = [(.python_wrap_html, 6)] := by decide

end ModelValidation
